import Mathlib

/-!
Verification of the fuel-metrics core of the octane repository.

The development shallowly embeds three layers of the source:

* the pure calculation module `src/domain/fuelCalculations.ts`
  (`validateMonotonicOdometer`, `validateFuelAmounts`,
  `calculateAverageEfficiency`, `calculatePerEntryEfficiency`,
  `calculateAverageCostPerDistance`);
* the fuel-entry store layer (the pinia store that owns the entry
  collection): its `chronologicalEntries` sorted view, the
  try/catch wrappers around the calculator, and the validators
  `validateFuelEntry` and `validateUpdateData`;
* the predictive module `src/domain/fuelPredictions.ts`
  (`estimateRange`).

JavaScript numbers are modelled as rationals, a thrown `Error` as the
`Except` monad with one error kind per distinct thrown message, and a
date string as the ordering-comparable integer instant it parses to,
with the ambient wall clock passed explicitly as `now`.
-/

/-- One fill-up record as consumed by the calculation module
(interface `FuelEntryCalculation` in `domain/fuelCalculations.ts`).
The store-level record carries an optional station label and
bookkeeping timestamps in addition, but none of those fields is read
by any calculation, so this one structure serves both layers. -/
structure FuelEntryCalculation where
  id : String
  date : String
  odometer : ℚ
  fuelAmount : ℚ
  fuelPrice : ℚ
  deriving Repr, DecidableEq

/-- One element of the result of `calculatePerEntryEfficiency`
(interface `PerEntryEfficiencyResult`). -/
structure PerEntryEfficiencyResult where
  entryId : String
  efficiency : ℚ
  distance : ℚ
  fuelUsed : ℚ
  deriving Repr, DecidableEq

/-- Error kinds thrown by `domain/fuelCalculations.ts`:
`nonMonotonicOdometer` is the message "Odometer readings must be
monotonically increasing", `invalidFuelAmount` is "Fuel amount must be
positive". -/
inductive FuelCalcError where
  | nonMonotonicOdometer
  | invalidFuelAmount
  deriving Repr, DecidableEq

/-- Embedding of `validateMonotonicOdometer`: walks the adjacent pairs
in the given order and throws on the first pair whose later odometer is
less than or equal to the former. -/
def validateMonotonicOdometer : List FuelEntryCalculation → Except FuelCalcError Unit
  | [] => Except.ok ()
  | [_] => Except.ok ()
  | a :: b :: rest =>
    if b.odometer ≤ a.odometer then Except.error FuelCalcError.nonMonotonicOdometer
    else validateMonotonicOdometer (b :: rest)

/-- Embedding of `validateFuelAmounts`: throws on the first entry whose
`fuelAmount` is zero or negative. -/
def validateFuelAmounts : List FuelEntryCalculation → Except FuelCalcError Unit
  | [] => Except.ok ()
  | e :: rest =>
    if e.fuelAmount ≤ 0 then Except.error FuelCalcError.invalidFuelAmount
    else validateFuelAmounts rest

/-- Embedding of `calculateAverageEfficiency`: fewer than 2 entries
gives `null` (here `none`); otherwise both validators run on the input
in its given order, then the result is
`(last.odometer - first.odometer) / (sum of fuelAmount from the 2nd
entry onwards)`.  A thrown validator error propagates unchanged. -/
def calculateAverageEfficiency (entries : List FuelEntryCalculation) :
    Except FuelCalcError (Option ℚ) :=
  match entries with
  | [] => Except.ok none
  | [_] => Except.ok none
  | e0 :: e1 :: rest =>
    match validateMonotonicOdometer (e0 :: e1 :: rest) with
    | Except.error e => Except.error e
    | Except.ok _ =>
      match validateFuelAmounts (e0 :: e1 :: rest) with
      | Except.error e => Except.error e
      | Except.ok _ =>
        Except.ok (some ((((e1 :: rest).getLastD e1).odometer - e0.odometer) /
          ((e1 :: rest).foldl (fun s e => s + e.fuelAmount) 0)))

/-- Body of the loop of `calculatePerEntryEfficiency` for one pair of
consecutive entries. -/
def perEntryRecord (prevEntry currEntry : FuelEntryCalculation) : PerEntryEfficiencyResult :=
  { entryId := currEntry.id
    efficiency := (currEntry.odometer - prevEntry.odometer) / currEntry.fuelAmount
    distance := currEntry.odometer - prevEntry.odometer
    fuelUsed := currEntry.fuelAmount }

/-- Embedding of `calculatePerEntryEfficiency`: fewer than 2 entries
gives the empty array; otherwise both validators run on the input in
its given order, then the loop `for i in 1 ..< length` collecting
`perEntryRecord entries[i-1] entries[i]` is rendered as a `zipWith` of
the list with its own tail. -/
def calculatePerEntryEfficiency (entries : List FuelEntryCalculation) :
    Except FuelCalcError (List PerEntryEfficiencyResult) :=
  match entries with
  | [] => Except.ok []
  | [_] => Except.ok []
  | e0 :: e1 :: rest =>
    match validateMonotonicOdometer (e0 :: e1 :: rest) with
    | Except.error e => Except.error e
    | Except.ok _ =>
      match validateFuelAmounts (e0 :: e1 :: rest) with
      | Except.error e => Except.error e
      | Except.ok _ =>
        Except.ok (List.zipWith perEntryRecord (e0 :: e1 :: rest) (e1 :: rest))

/-- Embedding of `calculateAverageCostPerDistance`: fewer than 2
entries gives `null`; otherwise both validators run on the input in
its given order, then the result is
`(sum of fuelAmount * fuelPrice from the 2nd entry onwards) /
(last.odometer - first.odometer)`. -/
def calculateAverageCostPerDistance (entries : List FuelEntryCalculation) :
    Except FuelCalcError (Option ℚ) :=
  match entries with
  | [] => Except.ok none
  | [_] => Except.ok none
  | e0 :: e1 :: rest =>
    match validateMonotonicOdometer (e0 :: e1 :: rest) with
    | Except.error e => Except.error e
    | Except.ok _ =>
      match validateFuelAmounts (e0 :: e1 :: rest) with
      | Except.error e => Except.error e
      | Except.ok _ =>
        Except.ok (some (((e1 :: rest).foldl (fun s e => s + e.fuelAmount * e.fuelPrice) 0) /
          (((e1 :: rest).getLastD e1).odometer - e0.odometer)))

instance : DecidableRel (fun a b : FuelEntryCalculation => a.odometer ≤ b.odometer) :=
  fun a b => inferInstanceAs (Decidable (a.odometer ≤ b.odometer))

instance : IsTotal FuelEntryCalculation (fun a b => a.odometer ≤ b.odometer) :=
  ⟨fun a b => le_total a.odometer b.odometer⟩

instance : IsTrans FuelEntryCalculation (fun a b => a.odometer ≤ b.odometer) :=
  ⟨fun _ _ _ hab hbc => le_trans hab hbc⟩

/-- Embedding of the store's `chronologicalEntries` computed view:
`[...entries].sort((a, b) => a.odometer - b.odometer)`, a stable sort
of a copy by ascending odometer (ECMAScript `Array.prototype.sort` is
stable), rendered as the stable `insertionSort`.  The input list is
untouched. -/
def chronologicalEntries (entries : List FuelEntryCalculation) : List FuelEntryCalculation :=
  List.insertionSort (fun a b => a.odometer ≤ b.odometer) entries

/-- Embedding of the store's `averageEfficiency` computed view: the
calculator applied to `chronologicalEntries`, with the try/catch that
turns any thrown error into `null`. -/
def storeAverageEfficiency (entries : List FuelEntryCalculation) : Option ℚ :=
  match calculateAverageEfficiency (chronologicalEntries entries) with
  | Except.ok v => v
  | Except.error _ => none

/-- Embedding of the store's `perEntryEfficiency` computed view: the
calculator applied to `chronologicalEntries`, with the try/catch that
turns any thrown error into the empty array. -/
def storePerEntryEfficiency (entries : List FuelEntryCalculation) :
    List PerEntryEfficiencyResult :=
  match calculatePerEntryEfficiency (chronologicalEntries entries) with
  | Except.ok v => v
  | Except.error _ => []

/-- Embedding of the store's `averageCostPerDistance` computed view:
the calculator applied to `chronologicalEntries`, with the try/catch
that turns any thrown error into `null`. -/
def storeAverageCostPerDistance (entries : List FuelEntryCalculation) : Option ℚ :=
  match calculateAverageCostPerDistance (chronologicalEntries entries) with
  | Except.ok v => v
  | Except.error _ => none

/-- Error kinds thrown by the store validators, one per distinct thrown
message: "Odometer must be positive", "Fuel amount must be positive",
"Fuel price must be positive", "Date cannot be in the future". -/
inductive ValidationError where
  | invalidOdometer
  | invalidFuelAmount
  | invalidFuelPrice
  | futureDate
  deriving Repr, DecidableEq

/-- Candidate entry for creation (interface `CreateFuelEntryInput`).
The `date` field is the integer instant that `new Date(input.date)`
parses the ISO string to, so that the comparison against "now" is an
integer comparison. -/
structure CreateFuelEntryInput where
  date : Int
  odometer : ℚ
  fuelAmount : ℚ
  fuelPrice : ℚ
  station : Option String
  deriving Repr, DecidableEq

/-- Partial update payload (interface `UpdateFuelEntryInput`): every
field optional, an absent field meaning "leave unchanged". -/
structure UpdateFuelEntryInput where
  date : Option Int
  odometer : Option ℚ
  fuelAmount : Option ℚ
  fuelPrice : Option ℚ
  station : Option String
  deriving Repr, DecidableEq

/-- Embedding of the store's `validateFuelEntry`: the four checks in
source order, throwing on the first violated one.  The ambient wall
clock `new Date()` is the injected argument `now`. -/
def validateFuelEntry (now : Int) (input : CreateFuelEntryInput) :
    Except ValidationError Unit :=
  if input.odometer ≤ 0 then Except.error ValidationError.invalidOdometer
  else if input.fuelAmount ≤ 0 then Except.error ValidationError.invalidFuelAmount
  else if input.fuelPrice ≤ 0 then Except.error ValidationError.invalidFuelPrice
  else if now < input.date then Except.error ValidationError.futureDate
  else Except.ok ()

/-- The guard `field !== undefined && field <= 0` of
`validateUpdateData`. -/
def presentAndNonpos (field : Option ℚ) : Bool :=
  match field with
  | none => false
  | some v => decide (v ≤ 0)

/-- The guard `updates.date !== undefined && new Date(updates.date) > now`
of `validateUpdateData`. -/
def presentAndFuture (now : Int) (field : Option Int) : Bool :=
  match field with
  | none => false
  | some d => decide (now < d)

/-- Embedding of the store's `validateUpdateData`: the create-time
checks applied only to the fields present in the partial payload, in
source order, throwing on the first violated one. -/
def validateUpdateData (now : Int) (updates : UpdateFuelEntryInput) :
    Except ValidationError Unit :=
  if presentAndNonpos updates.odometer then Except.error ValidationError.invalidOdometer
  else if presentAndNonpos updates.fuelAmount then Except.error ValidationError.invalidFuelAmount
  else if presentAndNonpos updates.fuelPrice then Except.error ValidationError.invalidFuelPrice
  else if presentAndFuture now updates.date then Except.error ValidationError.futureDate
  else Except.ok ()

/-- Error kind thrown by `domain/fuelPredictions.ts`: the message
"Tank capacity must be positive". -/
inductive PredictionError where
  | invalidTankCapacity
  deriving Repr, DecidableEq

/-- Embedding of `estimateRange`: rejects a non-positive tank capacity,
propagates a missing efficiency as `null`, and otherwise multiplies. -/
def estimateRange (averageEfficiency : Option ℚ) (tankCapacity : ℚ) :
    Except PredictionError (Option ℚ) :=
  if tankCapacity ≤ 0 then Except.error PredictionError.invalidTankCapacity
  else
    match averageEfficiency with
    | none => Except.ok none
    | some eff => Except.ok (some (eff * tankCapacity))

/-- The odometer validator succeeds exactly on lists whose odometers
strictly increase between adjacent entries. -/
theorem validateMonotonicOdometer_eq_ok_iff (l : List FuelEntryCalculation) :
    validateMonotonicOdometer l = Except.ok () ↔
      l.Chain' (fun a b => a.odometer < b.odometer) := by
  induction l with
  | nil => simp [validateMonotonicOdometer]
  | cons a t ih =>
    cases t with
    | nil => simp [validateMonotonicOdometer]
    | cons b r =>
      by_cases h : b.odometer ≤ a.odometer
      · rw [validateMonotonicOdometer, if_pos h]
        simp [List.chain'_cons, not_lt.mpr h]
      · rw [validateMonotonicOdometer, if_neg h]
        simp [List.chain'_cons, not_le.mp h, ih]

/-- The odometer validator either succeeds or throws precisely the
non-monotonic-odometer error. -/
theorem validateMonotonicOdometer_ok_or_error (l : List FuelEntryCalculation) :
    validateMonotonicOdometer l = Except.ok () ∨
      validateMonotonicOdometer l = Except.error FuelCalcError.nonMonotonicOdometer := by
  induction l with
  | nil => exact Or.inl rfl
  | cons a t ih =>
    cases t with
    | nil => exact Or.inl rfl
    | cons b r =>
      by_cases h : b.odometer ≤ a.odometer
      · rw [validateMonotonicOdometer, if_pos h]
        exact Or.inr rfl
      · rw [validateMonotonicOdometer, if_neg h]
        exact ih

/-- The fuel validator succeeds exactly on lists all of whose fuel
amounts are positive. -/
theorem validateFuelAmounts_eq_ok_iff (l : List FuelEntryCalculation) :
    validateFuelAmounts l = Except.ok () ↔ ∀ e ∈ l, 0 < e.fuelAmount := by
  induction l with
  | nil => simp [validateFuelAmounts]
  | cons a t ih =>
    by_cases h : a.fuelAmount ≤ 0
    · rw [validateFuelAmounts, if_pos h]
      simp [not_lt.mpr h]
    · rw [validateFuelAmounts, if_neg h]
      simp [not_le.mp h, ih]

/-- A left fold accumulating `f` over a list is the accumulator plus
the sum of the mapped list. -/
theorem foldl_add_map (f : FuelEntryCalculation → ℚ) :
    ∀ (l : List FuelEntryCalculation) (s : ℚ),
      l.foldl (fun acc e => acc + f e) s = s + (l.map f).sum := by
  intro l
  induction l with
  | nil => intro s; simp
  | cons a t ih => intro s; simp [List.foldl_cons, ih, add_assoc]

/-- Closed form of `calculateAverageEfficiency` on valid input. -/
theorem calculateAverageEfficiency_eq (e0 e1 : FuelEntryCalculation)
    (rest : List FuelEntryCalculation)
    (hmono : (e0 :: e1 :: rest).Chain' (fun a b => a.odometer < b.odometer))
    (hfuel : ∀ e ∈ e0 :: e1 :: rest, 0 < e.fuelAmount) :
    calculateAverageEfficiency (e0 :: e1 :: rest) =
      Except.ok (some ((((e1 :: rest).getLastD e1).odometer - e0.odometer) /
        ((e1 :: rest).map (fun e => e.fuelAmount)).sum)) := by
  have h1 : validateMonotonicOdometer (e0 :: e1 :: rest) = Except.ok () :=
    (validateMonotonicOdometer_eq_ok_iff _).mpr hmono
  have h2 : validateFuelAmounts (e0 :: e1 :: rest) = Except.ok () :=
    (validateFuelAmounts_eq_ok_iff _).mpr hfuel
  rw [calculateAverageEfficiency, h1, h2, foldl_add_map]
  rw [zero_add]

/-- Closed form of `calculatePerEntryEfficiency` on valid input. -/
theorem calculatePerEntryEfficiency_eq (e0 e1 : FuelEntryCalculation)
    (rest : List FuelEntryCalculation)
    (hmono : (e0 :: e1 :: rest).Chain' (fun a b => a.odometer < b.odometer))
    (hfuel : ∀ e ∈ e0 :: e1 :: rest, 0 < e.fuelAmount) :
    calculatePerEntryEfficiency (e0 :: e1 :: rest) =
      Except.ok (List.zipWith perEntryRecord (e0 :: e1 :: rest) (e1 :: rest)) := by
  have h1 : validateMonotonicOdometer (e0 :: e1 :: rest) = Except.ok () :=
    (validateMonotonicOdometer_eq_ok_iff _).mpr hmono
  have h2 : validateFuelAmounts (e0 :: e1 :: rest) = Except.ok () :=
    (validateFuelAmounts_eq_ok_iff _).mpr hfuel
  rw [calculatePerEntryEfficiency, h1, h2]

/-- Closed form of `calculateAverageCostPerDistance` on valid input. -/
theorem calculateAverageCostPerDistance_eq (e0 e1 : FuelEntryCalculation)
    (rest : List FuelEntryCalculation)
    (hmono : (e0 :: e1 :: rest).Chain' (fun a b => a.odometer < b.odometer))
    (hfuel : ∀ e ∈ e0 :: e1 :: rest, 0 < e.fuelAmount) :
    calculateAverageCostPerDistance (e0 :: e1 :: rest) =
      Except.ok (some (((e1 :: rest).map (fun e => e.fuelAmount * e.fuelPrice)).sum /
        (((e1 :: rest).getLastD e1).odometer - e0.odometer))) := by
  have h1 : validateMonotonicOdometer (e0 :: e1 :: rest) = Except.ok () :=
    (validateMonotonicOdometer_eq_ok_iff _).mpr hmono
  have h2 : validateFuelAmounts (e0 :: e1 :: rest) = Except.ok () :=
    (validateFuelAmounts_eq_ok_iff _).mpr hfuel
  rw [calculateAverageCostPerDistance, h1, h2, foldl_add_map]
  rw [zero_add]

/-- First entry of the spec's concrete scenarios A and B. -/
def scenarioEntry1 : FuelEntryCalculation :=
  { id := "e1", date := "", odometer := 10000, fuelAmount := 40, fuelPrice := 3 / 2 }

/-- Second entry of the spec's concrete scenarios A and B. -/
def scenarioEntry2 : FuelEntryCalculation :=
  { id := "e2", date := "", odometer := 10500, fuelAmount := 35, fuelPrice := 8 / 5 }

/-- Third entry of the spec's concrete scenarios A and B. -/
def scenarioEntry3 : FuelEntryCalculation :=
  { id := "e3", date := "", odometer := 11000, fuelAmount := 38, fuelPrice := 31 / 20 }

/-- C1: for every sequence of at least 2 entries whose odometers
strictly increase in the given order and whose fuel amounts are all
positive, `calculateAverageEfficiency` returns the distance between
the last and first odometer divided by the sum of `fuelAmount` over
all entries except the first. -/
theorem averageEfficiency_formula (e0 e1 : FuelEntryCalculation)
    (rest : List FuelEntryCalculation)
    (hmono : (e0 :: e1 :: rest).Chain' (fun a b => a.odometer < b.odometer))
    (hfuel : ∀ e ∈ e0 :: e1 :: rest, 0 < e.fuelAmount) :
    calculateAverageEfficiency (e0 :: e1 :: rest) =
      Except.ok (some ((((e1 :: rest).getLastD e1).odometer - e0.odometer) /
        ((e1 :: rest).map (fun e => e.fuelAmount)).sum)) :=
  calculateAverageEfficiency_eq e0 e1 rest hmono hfuel

/-- Witness for C1: on the spec's scenario A the average efficiency is
exactly 1000 / 73. -/
theorem averageEfficiency_formula_witness :
    calculateAverageEfficiency [scenarioEntry1, scenarioEntry2, scenarioEntry3] =
      Except.ok (some (1000 / 73)) := by
  rw [averageEfficiency_formula scenarioEntry1 scenarioEntry2 [scenarioEntry3]
    (by norm_num [List.chain'_cons, scenarioEntry1, scenarioEntry2, scenarioEntry3])
    (by norm_num [scenarioEntry1, scenarioEntry2, scenarioEntry3])]
  norm_num [scenarioEntry1, scenarioEntry2, scenarioEntry3]

/-- C3: whenever some adjacent pair, in the order the calculator
validates, has the later odometer less than or equal to the former
(that is, the strict chain condition fails), each of the three
calculator operations throws the non-monotonic-odometer error and
returns no partial result. -/
theorem nonMonotonic_fails_all_operations (entries : List FuelEntryCalculation)
    (h : ¬ entries.Chain' (fun a b => a.odometer < b.odometer)) :
    calculateAverageEfficiency entries = Except.error FuelCalcError.nonMonotonicOdometer ∧
    calculatePerEntryEfficiency entries = Except.error FuelCalcError.nonMonotonicOdometer ∧
    calculateAverageCostPerDistance entries =
      Except.error FuelCalcError.nonMonotonicOdometer := by
  have herr : validateMonotonicOdometer entries =
      Except.error FuelCalcError.nonMonotonicOdometer := by
    rcases validateMonotonicOdometer_ok_or_error entries with hok | herr
    · exact absurd ((validateMonotonicOdometer_eq_ok_iff entries).mp hok) h
    · exact herr
  cases entries with
  | nil => exact absurd List.chain'_nil h
  | cons e0 t =>
    cases t with
    | nil => exact absurd (List.chain'_singleton e0) h
    | cons e1 rest =>
      refine ⟨?_, ?_, ?_⟩
      · rw [calculateAverageEfficiency, herr]
      · rw [calculatePerEntryEfficiency, herr]
      · rw [calculateAverageCostPerDistance, herr]

/-- First entry of the spec's non-monotonic example. -/
def downEntry1 : FuelEntryCalculation :=
  { id := "d1", date := "", odometer := 10000, fuelAmount := 40, fuelPrice := 1 }

/-- Second entry of the spec's non-monotonic example: the odometer
dropped to 9000. -/
def downEntry2 : FuelEntryCalculation :=
  { id := "d2", date := "", odometer := 9000, fuelAmount := 35, fuelPrice := 1 }

/-- Witness for C3: an odometer reading 9000 following a prior 10000
makes every calculator operation throw. -/
theorem nonMonotonic_fails_all_operations_witness :
    calculateAverageEfficiency [downEntry1, downEntry2] =
      Except.error FuelCalcError.nonMonotonicOdometer ∧
    calculatePerEntryEfficiency [downEntry1, downEntry2] =
      Except.error FuelCalcError.nonMonotonicOdometer ∧
    calculateAverageCostPerDistance [downEntry1, downEntry2] =
      Except.error FuelCalcError.nonMonotonicOdometer :=
  nonMonotonic_fails_all_operations [downEntry1, downEntry2]
    (by norm_num [List.chain'_cons, downEntry1, downEntry2])

/-- C4: on every sequence with fewer than 2 entries, whatever the
entries contain, the two aggregate operations return `null`, the
per-entry operation returns the empty array, and nothing is thrown. -/
theorem insufficient_data_not_an_error (entries : List FuelEntryCalculation)
    (h : entries.length < 2) :
    calculateAverageEfficiency entries = Except.ok none ∧
    calculatePerEntryEfficiency entries = Except.ok [] ∧
    calculateAverageCostPerDistance entries = Except.ok none := by
  cases entries with
  | nil => exact ⟨rfl, rfl, rfl⟩
  | cons a t =>
    cases t with
    | nil => exact ⟨rfl, rfl, rfl⟩
    | cons b r =>
      simp only [List.length_cons] at h
      omega

/-- Singleton entry violating every field rule at once. -/
def invalidSingleton : FuelEntryCalculation :=
  { id := "bad", date := "", odometer := 0, fuelAmount := -5, fuelPrice := -1 }

/-- Witness for C4: a singleton whose fields are all invalid still
yields the undefined results rather than an error. -/
theorem insufficient_data_not_an_error_witness :
    calculateAverageEfficiency [invalidSingleton] = Except.ok none ∧
    calculatePerEntryEfficiency [invalidSingleton] = Except.ok [] ∧
    calculateAverageCostPerDistance [invalidSingleton] = Except.ok none :=
  insufficient_data_not_an_error [invalidSingleton] (by simp)

/-- Entry with the higher odometer, listed first in the counterexample. -/
def unsortedHigh : FuelEntryCalculation :=
  { id := "hi", date := "", odometer := 200, fuelAmount := 10, fuelPrice := 1 }

/-- Entry with the lower odometer, listed second in the counterexample. -/
def unsortedLow : FuelEntryCalculation :=
  { id := "lo", date := "", odometer := 100, fuelAmount := 10, fuelPrice := 1 }

/-- Counterexample to C2: the calculator entry points do not sort.  On
the two-entry list given in descending odometer order the calculator
throws the non-monotonic-odometer error, while on its odometer-sorted
permutation (which is what the store's `chronologicalEntries` produces)
it returns an efficiency of 10, so the result on an input differs from
the result on its sorted permutation. -/
theorem calculator_sorts_counterexample :
    chronologicalEntries [unsortedHigh, unsortedLow] = [unsortedLow, unsortedHigh] ∧
    calculateAverageEfficiency [unsortedHigh, unsortedLow] =
      Except.error FuelCalcError.nonMonotonicOdometer ∧
    calculateAverageEfficiency [unsortedLow, unsortedHigh] = Except.ok (some 10) := by
  refine ⟨?_, ?_, ?_⟩
  · norm_num [chronologicalEntries, List.insertionSort, List.orderedInsert,
      unsortedHigh, unsortedLow]
  · norm_num [calculateAverageEfficiency, validateMonotonicOdometer,
      unsortedHigh, unsortedLow]
  · norm_num [calculateAverageEfficiency, validateMonotonicOdometer,
      validateFuelAmounts, unsortedHigh, unsortedLow]

/-- C2 as amended: sorting by ascending odometer is performed by the
store layer, not by the calculator entry points; each store-level
metric (the calculator applied to `chronologicalEntries`, with thrown
errors caught) therefore equals its own value on the odometer-sorted
permutation of the input. -/
theorem store_metrics_sorted_invariant (entries : List FuelEntryCalculation) :
    storeAverageEfficiency (chronologicalEntries entries) = storeAverageEfficiency entries ∧
    storePerEntryEfficiency (chronologicalEntries entries) = storePerEntryEfficiency entries ∧
    storeAverageCostPerDistance (chronologicalEntries entries) =
      storeAverageCostPerDistance entries := by
  have key : chronologicalEntries (chronologicalEntries entries) = chronologicalEntries entries :=
    List.Sorted.insertionSort_eq
      (List.sorted_insertionSort (fun a b => a.odometer ≤ b.odometer) entries)
  refine ⟨?_, ?_, ?_⟩
  · rw [storeAverageEfficiency, storeAverageEfficiency, key]
  · rw [storePerEntryEfficiency, storePerEntryEfficiency, key]
  · rw [storeAverageCostPerDistance, storeAverageCostPerDistance, key]

/-- Index lookup in a list zipped with its own tail: position `i` of
the zip pairs positions `i` and `i + 1` of the list. -/
theorem zipWith_self_tail_get (f : FuelEntryCalculation → FuelEntryCalculation →
      PerEntryEfficiencyResult) :
    ∀ (l : List FuelEntryCalculation) (i : ℕ) (prev curr : FuelEntryCalculation),
      l.get? i = some prev → l.get? (i + 1) = some curr →
      (List.zipWith f l l.tail).get? i = some (f prev curr) := by
  intro l
  induction l with
  | nil =>
    intro i prev curr h1 _
    simp at h1
  | cons a t ih =>
    intro i prev curr h1 h2
    cases t with
    | nil =>
      cases i <;> simp at h2
    | cons b r =>
      cases i with
      | zero =>
        simp only [List.get?] at h1 h2
        cases h1
        cases h2
        rfl
      | succ n =>
        simp only [List.get?] at h1 h2
        exact ih n prev curr h1 h2

/-- C5: on valid input of at least 2 entries, the per-entry operation
succeeds with exactly one record per entry from the second onward: the
record at position `i` names the entry at position `i + 1`, its
distance is that entry's odometer minus its predecessor's, its fuel is
that entry's own amount, and its efficiency is their quotient. -/
theorem perEntryEfficiency_formula (e0 e1 : FuelEntryCalculation)
    (rest : List FuelEntryCalculation)
    (hmono : (e0 :: e1 :: rest).Chain' (fun a b => a.odometer < b.odometer))
    (hfuel : ∀ e ∈ e0 :: e1 :: rest, 0 < e.fuelAmount) :
    ∃ out, calculatePerEntryEfficiency (e0 :: e1 :: rest) = Except.ok out ∧
      out.length = (e0 :: e1 :: rest).length - 1 ∧
      ∀ (i : ℕ) (prev curr : FuelEntryCalculation),
        (e0 :: e1 :: rest).get? i = some prev →
        (e0 :: e1 :: rest).get? (i + 1) = some curr →
        out.get? i = some
          { entryId := curr.id
            efficiency := (curr.odometer - prev.odometer) / curr.fuelAmount
            distance := curr.odometer - prev.odometer
            fuelUsed := curr.fuelAmount } := by
  refine ⟨List.zipWith perEntryRecord (e0 :: e1 :: rest) (e1 :: rest),
    calculatePerEntryEfficiency_eq e0 e1 rest hmono hfuel, ?_, ?_⟩
  · simp [List.length_zipWith]
  · intro i prev curr hp hc
    exact zipWith_self_tail_get perEntryRecord (e0 :: e1 :: rest) i prev curr hp hc

/-- Witness for C5: the per-entry formula instantiated on the spec's
scenario A. -/
theorem perEntryEfficiency_formula_witness :
    ∃ out, calculatePerEntryEfficiency [scenarioEntry1, scenarioEntry2, scenarioEntry3] =
        Except.ok out ∧
      out.length = [scenarioEntry1, scenarioEntry2, scenarioEntry3].length - 1 ∧
      ∀ (i : ℕ) (prev curr : FuelEntryCalculation),
        [scenarioEntry1, scenarioEntry2, scenarioEntry3].get? i = some prev →
        [scenarioEntry1, scenarioEntry2, scenarioEntry3].get? (i + 1) = some curr →
        out.get? i = some
          { entryId := curr.id
            efficiency := (curr.odometer - prev.odometer) / curr.fuelAmount
            distance := curr.odometer - prev.odometer
            fuelUsed := curr.fuelAmount } :=
  perEntryEfficiency_formula scenarioEntry1 scenarioEntry2 [scenarioEntry3]
    (by norm_num [List.chain'_cons, scenarioEntry1, scenarioEntry2, scenarioEntry3])
    (by norm_num [scenarioEntry1, scenarioEntry2, scenarioEntry3])

/-- C6: for every sequence of at least 2 entries whose odometers
strictly increase in the given order and whose fuel amounts are all
positive, `calculateAverageCostPerDistance` returns the sum of
`fuelAmount * fuelPrice` over all entries except the first divided by
the distance between the last and first odometer. -/
theorem averageCostPerDistance_formula (e0 e1 : FuelEntryCalculation)
    (rest : List FuelEntryCalculation)
    (hmono : (e0 :: e1 :: rest).Chain' (fun a b => a.odometer < b.odometer))
    (hfuel : ∀ e ∈ e0 :: e1 :: rest, 0 < e.fuelAmount) :
    calculateAverageCostPerDistance (e0 :: e1 :: rest) =
      Except.ok (some (((e1 :: rest).map (fun e => e.fuelAmount * e.fuelPrice)).sum /
        (((e1 :: rest).getLastD e1).odometer - e0.odometer))) :=
  calculateAverageCostPerDistance_eq e0 e1 rest hmono hfuel

/-- Witness for C6: on the spec's scenario B the average cost per
distance is exactly (35 * 1.6 + 38 * 1.55) / 1000 = 0.1149. -/
theorem averageCostPerDistance_formula_witness :
    calculateAverageCostPerDistance [scenarioEntry1, scenarioEntry2, scenarioEntry3] =
      Except.ok (some (1149 / 10000)) := by
  rw [averageCostPerDistance_formula scenarioEntry1 scenarioEntry2 [scenarioEntry3]
    (by norm_num [List.chain'_cons, scenarioEntry1, scenarioEntry2, scenarioEntry3])
    (by norm_num [scenarioEntry1, scenarioEntry2, scenarioEntry3])]
  norm_num [scenarioEntry1, scenarioEntry2, scenarioEntry3]

/-- C7: with "now" injected, create-time validation throws
`invalidOdometer` whenever the odometer is non-positive, throws on any
non-positive fuel amount or fuel price and on any future date (with
the corresponding kind once the checks listed before it pass, the
checks running in source order), and succeeds exactly when all four
rules hold. -/
theorem validateForCreate_spec (now : Int) (input : CreateFuelEntryInput) :
    (input.odometer ≤ 0 →
      validateFuelEntry now input = Except.error ValidationError.invalidOdometer) ∧
    (input.fuelAmount ≤ 0 → ∃ err, validateFuelEntry now input = Except.error err) ∧
    (0 < input.odometer → input.fuelAmount ≤ 0 →
      validateFuelEntry now input = Except.error ValidationError.invalidFuelAmount) ∧
    (input.fuelPrice ≤ 0 → ∃ err, validateFuelEntry now input = Except.error err) ∧
    (0 < input.odometer → 0 < input.fuelAmount → input.fuelPrice ≤ 0 →
      validateFuelEntry now input = Except.error ValidationError.invalidFuelPrice) ∧
    (now < input.date → ∃ err, validateFuelEntry now input = Except.error err) ∧
    (0 < input.odometer → 0 < input.fuelAmount → 0 < input.fuelPrice → now < input.date →
      validateFuelEntry now input = Except.error ValidationError.futureDate) ∧
    (0 < input.odometer → 0 < input.fuelAmount → 0 < input.fuelPrice → input.date ≤ now →
      validateFuelEntry now input = Except.ok ()) := by
  refine ⟨?_, ?_, ?_, ?_, ?_, ?_, ?_, ?_⟩
  · intro h
    rw [validateFuelEntry, if_pos h]
  · intro h
    by_cases ho : input.odometer ≤ 0
    · exact ⟨ValidationError.invalidOdometer, by rw [validateFuelEntry, if_pos ho]⟩
    · exact ⟨ValidationError.invalidFuelAmount, by
        rw [validateFuelEntry, if_neg ho, if_pos h]⟩
  · intro ho h
    rw [validateFuelEntry, if_neg (not_le.mpr ho), if_pos h]
  · intro h
    by_cases ho : input.odometer ≤ 0
    · exact ⟨ValidationError.invalidOdometer, by rw [validateFuelEntry, if_pos ho]⟩
    by_cases hf : input.fuelAmount ≤ 0
    · exact ⟨ValidationError.invalidFuelAmount, by
        rw [validateFuelEntry, if_neg ho, if_pos hf]⟩
    · exact ⟨ValidationError.invalidFuelPrice, by
        rw [validateFuelEntry, if_neg ho, if_neg hf, if_pos h]⟩
  · intro ho hf h
    rw [validateFuelEntry, if_neg (not_le.mpr ho), if_neg (not_le.mpr hf), if_pos h]
  · intro h
    by_cases ho : input.odometer ≤ 0
    · exact ⟨ValidationError.invalidOdometer, by rw [validateFuelEntry, if_pos ho]⟩
    by_cases hf : input.fuelAmount ≤ 0
    · exact ⟨ValidationError.invalidFuelAmount, by
        rw [validateFuelEntry, if_neg ho, if_pos hf]⟩
    by_cases hp : input.fuelPrice ≤ 0
    · exact ⟨ValidationError.invalidFuelPrice, by
        rw [validateFuelEntry, if_neg ho, if_neg hf, if_pos hp]⟩
    · exact ⟨ValidationError.futureDate, by
        rw [validateFuelEntry, if_neg ho, if_neg hf, if_neg hp, if_pos h]⟩
  · intro ho hf hp h
    rw [validateFuelEntry, if_neg (not_le.mpr ho), if_neg (not_le.mpr hf),
      if_neg (not_le.mpr hp), if_pos h]
  · intro ho hf hp h
    rw [validateFuelEntry, if_neg (not_le.mpr ho), if_neg (not_le.mpr hf),
      if_neg (not_le.mpr hp), if_neg (not_lt.mpr h)]

/-- Witness for C7: at the injected instant 100, a candidate dated 200
is rejected as a future date, a candidate with a negative odometer is
rejected as an invalid odometer, and a fully valid candidate passes
silently. -/
theorem validateForCreate_spec_witness :
    validateFuelEntry 100
      { date := 200, odometer := 50, fuelAmount := 20, fuelPrice := 3 / 2, station := none } =
      Except.error ValidationError.futureDate ∧
    validateFuelEntry 100
      { date := 50, odometer := -9, fuelAmount := 20, fuelPrice := 3 / 2, station := none } =
      Except.error ValidationError.invalidOdometer ∧
    validateFuelEntry 100
      { date := 50, odometer := 50, fuelAmount := 20, fuelPrice := 3 / 2, station := none } =
      Except.ok () :=
  ⟨(validateForCreate_spec 100 _).2.2.2.2.2.2.1 (by norm_num) (by norm_num) (by norm_num)
      (by norm_num),
    (validateForCreate_spec 100 _).1 (by norm_num),
    (validateForCreate_spec 100 _).2.2.2.2.2.2.2 (by norm_num) (by norm_num) (by norm_num)
      (by norm_num)⟩

/-- Update-time validation succeeds exactly when all four guard flags
are off. -/
theorem validateUpdateData_eq_ok_iff (now : Int) (updates : UpdateFuelEntryInput) :
    validateUpdateData now updates = Except.ok () ↔
      (presentAndNonpos updates.odometer = false ∧
       presentAndNonpos updates.fuelAmount = false ∧
       presentAndNonpos updates.fuelPrice = false ∧
       presentAndFuture now updates.date = false) := by
  rw [validateUpdateData]
  split_ifs with h1 h2 h3 h4 <;> simp_all

/-- The non-positivity guard is off exactly when any present value is
positive. -/
theorem presentAndNonpos_eq_false_iff (field : Option ℚ) :
    presentAndNonpos field = false ↔ ∀ v, field = some v → 0 < v := by
  cases field with
  | none => simp [presentAndNonpos]
  | some v => simp [presentAndNonpos, not_le]

/-- The future-date guard is off exactly when any present instant is
not after now. -/
theorem presentAndFuture_eq_false_iff (now : Int) (field : Option Int) :
    presentAndFuture now field = false ↔ ∀ d, field = some d → d ≤ now := by
  cases field with
  | none => simp [presentAndFuture]
  | some d => simp [presentAndFuture, not_lt]

/-- C8: update-time validation checks only the fields present in the
partial payload, so it succeeds exactly when every present field obeys
its create-time rule; absent fields, such as the odometer in a payload
carrying only a fuel amount, are never consulted. -/
theorem validateForUpdate_spec (now : Int) (updates : UpdateFuelEntryInput) :
    validateUpdateData now updates = Except.ok () ↔
      ((∀ v, updates.odometer = some v → 0 < v) ∧
       (∀ v, updates.fuelAmount = some v → 0 < v) ∧
       (∀ v, updates.fuelPrice = some v → 0 < v) ∧
       (∀ d, updates.date = some d → d ≤ now)) := by
  rw [validateUpdateData_eq_ok_iff, presentAndNonpos_eq_false_iff,
    presentAndNonpos_eq_false_iff, presentAndNonpos_eq_false_iff,
    presentAndFuture_eq_false_iff]

/-- Witness for C8: a payload carrying only a fuel amount of 20 passes
although no odometer is supplied, and the same payload with fuel
amount 0 fails. -/
theorem validateForUpdate_spec_witness :
    validateUpdateData 100
      { date := none, odometer := none, fuelAmount := some 20, fuelPrice := none,
        station := none } = Except.ok () ∧
    validateUpdateData 100
      { date := none, odometer := none, fuelAmount := some 0, fuelPrice := none,
        station := none } ≠ Except.ok () :=
  ⟨(validateForUpdate_spec 100 _).mpr
      ⟨by simp, by intro v hv; injection hv with h; subst h; norm_num, by simp, by simp⟩,
    fun h => by
      have h2 := ((validateForUpdate_spec 100 _).mp h).2.1 0 rfl
      norm_num at h2⟩

/-- C9: range estimation throws on any non-positive tank capacity for
every efficiency argument including the undefined one; with a positive
capacity it propagates an undefined efficiency as undefined and
otherwise multiplies efficiency by capacity, so zero efficiency gives
a zero range rather than an error. -/
theorem estimateRange_spec (averageEfficiency : Option ℚ) (tankCapacity : ℚ) :
    (tankCapacity ≤ 0 →
      estimateRange averageEfficiency tankCapacity =
        Except.error PredictionError.invalidTankCapacity) ∧
    (0 < tankCapacity → averageEfficiency = none →
      estimateRange averageEfficiency tankCapacity = Except.ok none) ∧
    (0 < tankCapacity → ∀ eff, averageEfficiency = some eff →
      estimateRange averageEfficiency tankCapacity = Except.ok (some (eff * tankCapacity))) := by
  refine ⟨?_, ?_, ?_⟩
  · intro h
    unfold estimateRange
    rw [if_pos h]
  · intro h hn
    subst hn
    unfold estimateRange
    rw [if_neg (not_le.mpr h)]
  · intro h eff he
    subst he
    unfold estimateRange
    rw [if_neg (not_le.mpr h)]

/-- Witness for C9: estimateRange 15 50 = 750, estimateRange with an
undefined efficiency yields undefined, a zero capacity throws even
with a defined efficiency, and a zero efficiency yields a zero range. -/
theorem estimateRange_spec_witness :
    estimateRange (some 15) 50 = Except.ok (some 750) ∧
    estimateRange none 50 = Except.ok none ∧
    estimateRange (some 15) 0 = Except.error PredictionError.invalidTankCapacity ∧
    estimateRange (some 0) 50 = Except.ok (some 0) := by
  refine ⟨?_, ?_, ?_, ?_⟩
  · rw [(estimateRange_spec (some 15) 50).2.2 (by norm_num) 15 rfl]
    norm_num
  · exact (estimateRange_spec none 50).2.1 (by norm_num) rfl
  · exact (estimateRange_spec (some 15) 0).1 (by norm_num)
  · rw [(estimateRange_spec (some 0) 50).2.2 (by norm_num) 0 rfl]
    norm_num

/-- The fuel amounts recorded by the per-entry loop are exactly the
fuel amounts of the entries from the second onward. -/
theorem perEntry_fuelUsed_map :
    ∀ (t : List FuelEntryCalculation) (e0 : FuelEntryCalculation),
      (List.zipWith perEntryRecord (e0 :: t) t).map (fun r => r.fuelUsed) =
        t.map (fun e => e.fuelAmount) := by
  intro t
  induction t with
  | nil => intro e0; rfl
  | cons b r ih =>
    intro e0
    simp only [List.zipWith, List.map_cons, List.cons.injEq]
    exact ⟨rfl, ih b⟩

/-- The distances recorded by the per-entry loop telescope to the
distance between the last and first odometer. -/
theorem perEntry_distance_sum :
    ∀ (t : List FuelEntryCalculation) (e0 : FuelEntryCalculation),
      ((List.zipWith perEntryRecord (e0 :: t) t).map (fun r => r.distance)).sum =
        (t.getLastD e0).odometer - e0.odometer := by
  intro t
  induction t with
  | nil =>
    intro e0
    simp
  | cons b r ih =>
    intro e0
    simp only [List.zipWith, List.map_cons, List.sum_cons, List.getLastD_cons, ih b,
      perEntryRecord]
    ring

/-- C10: on valid input of at least 2 entries, the per-entry records
aggregate back to the average: their distances telescope to the total
distance and their fuel to the non-baseline fuel total, so the average
efficiency equals the sum of the recorded distances divided by the sum
of the recorded fuel amounts. -/
theorem averageEfficiency_aggregates_perEntry (e0 e1 : FuelEntryCalculation)
    (rest : List FuelEntryCalculation)
    (hmono : (e0 :: e1 :: rest).Chain' (fun a b => a.odometer < b.odometer))
    (hfuel : ∀ e ∈ e0 :: e1 :: rest, 0 < e.fuelAmount) :
    ∃ out, calculatePerEntryEfficiency (e0 :: e1 :: rest) = Except.ok out ∧
      calculateAverageEfficiency (e0 :: e1 :: rest) =
        Except.ok (some ((out.map (fun r => r.distance)).sum /
          (out.map (fun r => r.fuelUsed)).sum)) := by
  refine ⟨List.zipWith perEntryRecord (e0 :: e1 :: rest) (e1 :: rest),
    calculatePerEntryEfficiency_eq e0 e1 rest hmono hfuel, ?_⟩
  rw [calculateAverageEfficiency_eq e0 e1 rest hmono hfuel]
  rw [perEntry_fuelUsed_map (e1 :: rest) e0, perEntry_distance_sum (e1 :: rest) e0]
  rw [List.getLastD_cons, List.getLastD_cons]

/-- Witness for C10: the aggregation identity instantiated on the
spec's scenario A. -/
theorem averageEfficiency_aggregates_perEntry_witness :
    ∃ out, calculatePerEntryEfficiency [scenarioEntry1, scenarioEntry2, scenarioEntry3] =
        Except.ok out ∧
      calculateAverageEfficiency [scenarioEntry1, scenarioEntry2, scenarioEntry3] =
        Except.ok (some ((out.map (fun r => r.distance)).sum /
          (out.map (fun r => r.fuelUsed)).sum)) :=
  averageEfficiency_aggregates_perEntry scenarioEntry1 scenarioEntry2 [scenarioEntry3]
    (by norm_num [List.chain'_cons, scenarioEntry1, scenarioEntry2, scenarioEntry3])
    (by norm_num [scenarioEntry1, scenarioEntry2, scenarioEntry3])
